import Mathlib

/-!
Shallow embedding of the resilient fetch-and-parse pipeline of the
`dlsite-gamebox` crate: the TTL/LRU caches (`src/cache.rs`), the retry
policy (`src/retry.rs`), the rate-limited fetch loop of
`DlsiteClient::get` (`src/client/mod.rs`) and the search orchestration
(`src/client/search/mod.rs`).

Modelling conventions: time is milliseconds (`Nat`); `f64` arithmetic is
exact rational arithmetic (`ℚ`), which agrees with the source's
double-precision evaluation on every value the code computes; the
effectful collaborators (clock readings, the HTTP transport, the
`serde_json` decoder, the `scraper` HTML splitting and the site-specific
per-item field extraction, which the spec's §4.5 places outside the
core) are explicit environments threaded through the functions.
-/

/-- Transport-level failure of the underlying HTTP client
(`reqwest::Error`): a request timeout or a connection-level error. -/
inductive TransportError where
  | timedOut
  | connect
  deriving DecidableEq

/-- The error enum `DlsiteError` of `src/error.rs`. -/
inductive DlsiteError where
  | reqwest (e : TransportError)
  | serdeJson (msg : String)
  | httpStatus (code : Nat)
  | rateLimit (msg : String)
  | timeout
  | parse (msg : String)
  | server (msg : String)
  deriving DecidableEq

/-- The `From«reqwest::Error» for DlsiteError` conversion derived by
thiserror's `from` attribute on the `Reqwest` variant (`src/error.rs`
line 8): every transport error, timeouts included, is wrapped in the
`Reqwest` variant.  The dedicated `Timeout` variant is never produced by
this conversion (nor anywhere else in the crate). -/
def DlsiteError.from_reqwest (e : TransportError) : DlsiteError :=
  DlsiteError.reqwest e

/-- `RetryConfig` of `src/retry.rs`; delays are in milliseconds and the
`f64` multiplier is modelled as a rational. -/
structure RetryConfig where
  max_retries : Nat
  initial_delay : Nat
  max_delay : Nat
  backoff_multiplier : ℚ
  deriving DecidableEq

/-- `impl Default for RetryConfig`: 3 retries, 100ms initial delay, 10s
max delay, multiplier 2.0. -/
def RetryConfig.default : RetryConfig :=
  { max_retries := 3, initial_delay := 100, max_delay := 10000, backoff_multiplier := 2 }

/-- `RetryConfig::calculate_delay` (`src/retry.rs` lines 40-45):
`initial_delay * multiplier^attempt` capped at `max_delay`, computed in
`f64` and truncated to whole milliseconds by the `as u64` cast.  The
rational computation is exact for every value the `f64` evaluation
represents exactly (in particular the whole default-configuration orbit),
and `Int.toNat ∘ Int.floor` coincides with Rust's saturating truncating
cast on the nonnegative range and on negatives (both give 0).  The source
casts `attempt: u32` to `i32` for `powi`; the cast is the identity below
`2^31`, which covers every attempt the retry loop can produce, and we
model that range with a `Nat` exponent. -/
def RetryConfig.calculate_delay (cfg : RetryConfig) (attempt : Nat) : Nat :=
  let delay_ms : ℚ := (cfg.initial_delay : ℚ) * cfg.backoff_multiplier ^ attempt
  let capped : ℚ := min delay_ms (cfg.max_delay : ℚ)
  ⌊capped⌋.toNat

/-- `RetryConfig::is_retryable` (`src/retry.rs` lines 48-59): timeouts and
upstream rate limits are retryable, HTTP status errors are retryable
exactly when the code is at least 500, everything else (the `Reqwest`
transport wrapper included) is not. -/
def RetryConfig.is_retryable (_cfg : RetryConfig) (error : DlsiteError) : Bool :=
  match error with
  | DlsiteError.timeout => true
  | DlsiteError.rateLimit _ => true
  | DlsiteError.httpStatus code => decide (500 ≤ code)
  | _ => false

/-- `CacheEntry<T>` of `src/cache.rs`. -/
structure CacheEntry (V : Type) where
  data : V
  expires_at : Nat
  deriving DecidableEq

/-- `CacheEntry::is_expired`: `Instant::now() > self.expires_at`, with
the clock reading passed explicitly. -/
def CacheEntry.is_expired (e : CacheEntry V) (now : Nat) : Bool :=
  decide (e.expires_at < now)

/-- Remove every entry keyed `k` (the effect of the `lru` crate's
`pop(k)` on the association-list model). -/
def eraseKey (k : String) (l : List (String × α)) : List (String × α) :=
  l.filter (fun p => p.1 != k)

/-- Model of the `lru` crate's `LruCache::put` on an association list
kept most-recently-used first: an existing key is updated and promoted
to the front (no eviction); a new key is pushed at the front, and when
the cache is already full the last element — the least-recently-used
entry — is evicted first. -/
def LruModel.put (cap : Nat) (k : String) (v : α) (l : List (String × α)) :
    List (String × α) :=
  if (l.lookup k).isSome then
    (k, v) :: eraseKey k l
  else if l.length < cap then
    (k, v) :: l
  else
    (k, v) :: l.dropLast

/-- `GenericCache<T>` of `src/cache.rs` (lines 85-142): an LRU map from
`String` keys to expiring entries, with the recency list kept
most-recently-used first. -/
structure GenericCache (V : Type) where
  entries : List (String × CacheEntry V)
  cap : Nat
  ttl : Nat
  deriving DecidableEq

/-- `ResponseCache` of `src/cache.rs` (lines 21-83) is the same
implementation textually specialised to `String` bodies. -/
abbrev ResponseCache := GenericCache String

/-- `GenericCache::get` / `ResponseCache::get` (`src/cache.rs` lines
43-54 and 102-113): `get_mut` promotes the entry; a fresh entry's value
is returned, an expired entry is popped and treated as absent. -/
def GenericCache.get (c : GenericCache V) (key : String) (now : Nat) :
    Option V × GenericCache V :=
  match c.entries.lookup key with
  | some entry =>
    if entry.is_expired now then
      (none, { c with entries := eraseKey key c.entries })
    else
      (some entry.data, { c with entries := (key, entry) :: eraseKey key c.entries })
  | none => (none, c)

/-- `GenericCache::insert` / `ResponseCache::insert` (`src/cache.rs`
lines 57-64 and 116-123): store the value with
`expires_at = now + ttl` via `LruCache::put`. -/
def GenericCache.insert (c : GenericCache V) (key : String) (value : V) (now : Nat) :
    GenericCache V :=
  { c with entries := LruModel.put c.cap key ⟨value, now + c.ttl⟩ c.entries }

/-- `GenericCache::clear`. -/
def GenericCache.clear (c : GenericCache V) : GenericCache V :=
  { c with entries := [] }

/-- `GenericCache::len`. -/
def GenericCache.len (c : GenericCache V) : Nat :=
  c.entries.length

/-- `GenericCache::is_empty`. -/
def GenericCache.is_empty (c : GenericCache V) : Bool :=
  c.entries.isEmpty

/-- Outcome of a Rust computation that may panic: `.panicked` models an
unwinding `panic` / failed `unwrap`, which aborts the call rather than
returning a value the caller can branch on. -/
inductive PanicOr (α : Type) where
  | ok (val : α)
  | panicked (msg : String)
  deriving DecidableEq

/-- `GenericCache::<T>::new(capacity, ttl)` (`src/cache.rs` lines
92-100): `LruCache::new(NonZeroUsize::new(capacity).unwrap())` panics
when `capacity == 0`, since `NonZeroUsize::new(0)` is `None`. -/
def GenericCache.new (V : Type) (capacity ttl : Nat) : PanicOr (GenericCache V) :=
  if capacity = 0 then
    PanicOr.panicked "called Option::unwrap on a None value"
  else
    PanicOr.ok { entries := [], cap := capacity, ttl := ttl }

/-- `ResponseCache::new` (`src/cache.rs` lines 34-40), textually the
same construction. -/
def ResponseCache.new (capacity ttl : Nat) : PanicOr ResponseCache :=
  if capacity = 0 then
    PanicOr.panicked "called Option::unwrap on a None value"
  else
    PanicOr.ok { entries := [], cap := capacity, ttl := ttl }

/-- Equality of `Except` values is decidable when it is on both
components; used to make transport outcomes and call results decidable
for concrete-input evaluation. -/
instance exceptDecEq {ε α : Type} [DecidableEq ε] [DecidableEq α] :
    DecidableEq (Except ε α) := fun a b =>
  match a, b with
  | Except.ok x, Except.ok y =>
    if h : x = y then Decidable.isTrue (by rw [h]) else Decidable.isFalse (by simp [h])
  | Except.error x, Except.error y =>
    if h : x = y then Decidable.isTrue (by rw [h]) else Decidable.isFalse (by simp [h])
  | Except.ok _, Except.error _ => Decidable.isFalse (by simp)
  | Except.error _, Except.ok _ => Decidable.isFalse (by simp)

/-- Outcome of one dispatch through the HTTP transport: a response with a
status code and the result of reading its body as text
(`response.text()` can itself fail with a transport error), or a
transport-level failure of `send()`. -/
inductive TransportOutcome where
  | success (status : Nat) (body : Except TransportError String)
  | failure (e : TransportError)
  deriving DecidableEq

/-- Environment of one `DlsiteClient::get` call: the transport outcome
and the wall-clock reading (`SystemTime::now`, in ms) of each dispatch
attempt, plus the clock reading used by the initial cache lookup. -/
structure GetEnv where
  outcomes : Nat → TransportOutcome
  nows : Nat → Nat
  check_now : Nat

/-- The mutable state a `DlsiteClient` owns (`src/client/mod.rs` lines
14-25): the response cache and the rate limiter's last-request
timestamp (ms). -/
structure ClientState where
  cache : ResponseCache
  last_request_time : Nat
  deriving DecidableEq

/-- Observable effects of one `DlsiteClient::get` call: how many
dispatches were issued, the wall-clock instant of each dispatch (the
attempt's clock reading plus any rate-limiter sleep), the rate-limiter
sleeps and the retry back-off sleeps, in order. -/
structure GetTrace where
  dispatches : Nat
  dispatch_times : List Nat
  rate_sleeps : List Nat
  backoff_sleeps : List Nat
  deriving DecidableEq

/-- The empty trace. -/
def GetTrace.empty : GetTrace :=
  { dispatches := 0, dispatch_times := [], rate_sleeps := [], backoff_sleeps := [] }

/-- The retry loop of `DlsiteClient::get` (`src/client/mod.rs` lines
136-203), one recursive step per `attempt` in `0..=max_retries` (the
fuel argument is `max_retries + 1 - attempt`).  Each iteration reads the
clock (`now`), sleeps `500 - elapsed` ms when less than 500ms have
elapsed since `last_request_time`, then stores `now` — the reading taken
before the wait — as the new `last_request_time`, and dispatches.  A 429
response, a non-2xx status and a transport failure each retry when
`attempt < max_retries` and the mapped error is retryable, and are
returned otherwise; a 2xx body is inserted into the response cache and
returned.  When the fuel is exhausted the last remembered error (or a
generic parse error) is returned. -/
def DlsiteClient.getLoop (cfg : RetryConfig) (env : GetEnv) (url : String) :
    Nat → Nat → ClientState → GetTrace → Option DlsiteError →
    Except DlsiteError String × ClientState × GetTrace
  | 0, _, s, tr, last_error =>
    (Except.error (last_error.getD (DlsiteError.parse "Unknown error")), s, tr)
  | fuel + 1, attempt, s, tr, _last_error =>
    let now := env.nows attempt
    let elapsed := now - s.last_request_time
    let sleep_time := if elapsed < 500 then 500 - elapsed else 0
    let tr1 : GetTrace :=
      if elapsed < 500 then { tr with rate_sleeps := tr.rate_sleeps ++ [500 - elapsed] } else tr
    let s1 : ClientState := { s with last_request_time := now }
    let tr2 : GetTrace :=
      { tr1 with dispatches := tr1.dispatches + 1,
                 dispatch_times := tr1.dispatch_times ++ [now + sleep_time] }
    match env.outcomes attempt with
    | TransportOutcome.success status body =>
      if status = 429 then
        let err := DlsiteError.rateLimit "Too many requests, please retry later"
        if attempt < cfg.max_retries ∧ cfg.is_retryable err = true then
          DlsiteClient.getLoop cfg env url fuel (attempt + 1) s1
            { tr2 with backoff_sleeps := tr2.backoff_sleeps ++ [cfg.calculate_delay attempt] }
            (some err)
        else
          (Except.error err, s1, tr2)
      else if ¬ (200 ≤ status ∧ status < 300) then
        let err := DlsiteError.httpStatus status
        if attempt < cfg.max_retries ∧ cfg.is_retryable err = true then
          DlsiteClient.getLoop cfg env url fuel (attempt + 1) s1
            { tr2 with backoff_sleeps := tr2.backoff_sleeps ++ [cfg.calculate_delay attempt] }
            (some err)
        else
          (Except.error err, s1, tr2)
      else
        match body with
        | Except.error e => (Except.error (DlsiteError.from_reqwest e), s1, tr2)
        | Except.ok b =>
          (Except.ok b, { s1 with cache := s1.cache.insert url b now }, tr2)
    | TransportOutcome.failure e =>
      let err := DlsiteError.from_reqwest e
      if attempt < cfg.max_retries ∧ cfg.is_retryable err = true then
        DlsiteClient.getLoop cfg env url fuel (attempt + 1) s1
          { tr2 with backoff_sleeps := tr2.backoff_sleeps ++ [cfg.calculate_delay attempt] }
          (some err)
      else
        (Except.error err, s1, tr2)

/-- `DlsiteClient::get` (`src/client/mod.rs` lines 128-204): build the
full URL, consult the response cache, return a hit immediately, and
otherwise run the retry loop over attempts `0..=max_retries`. -/
def DlsiteClient.get (cfg : RetryConfig) (env : GetEnv) (base_url path : String)
    (s : ClientState) : Except DlsiteError String × ClientState × GetTrace :=
  let url := base_url ++ path
  match s.cache.get url env.check_now with
  | (some cached, cache2) => (Except.ok cached, { s with cache := cache2 }, GetTrace.empty)
  | (none, cache2) =>
    DlsiteClient.getLoop cfg env url (cfg.max_retries + 1) 0
      { s with cache := cache2 } GetTrace.empty none

/-- The deserialised search response envelope (`SearchAjaxResult` of
`src/client/search/mod.rs` lines 36-40, with `page_info` flattened to
its single `count` field). -/
structure SearchAjaxResult where
  search_result : String
  count : Int
  deriving DecidableEq

/-- Environment of the search orchestration, `Item` being the
site-specific record type (`SearchProductItem`): the fetch environment,
the `serde_json` envelope decoder, the `scraper`-based splitting of the
result HTML into per-item fragments (`#search_result_img_box > li`,
serialised back to HTML), the per-item field extraction
(`parse_search_item_html`, site-specific and outside the core per spec
§4.5), and the clock readings used by the result cache. -/
structure SearchEnv (Item : Type) where
  get_env : GetEnv
  parse_ajax : String → Except DlsiteError SearchAjaxResult
  split_items : String → List String
  parse_item : String → Except DlsiteError Item
  rc_now : Nat
  rc_insert_now : Nat

/-- State owned by a `SearchClient` (`src/client/search/mod.rs` lines
25-29): the underlying client state plus the dedicated result cache
keyed by query signature. -/
structure SearchState (Item : Type) where
  client : ClientState
  result_cache : GenericCache (List Item)
  deriving DecidableEq

/-- `SearchResult` of `src/client/search/mod.rs` lines 61-66. -/
structure SearchResult (Item : Type) where
  products : List Item
  count : Int
  query_path : String
  deriving DecidableEq

/-- Effects of one search call: how many `DlsiteClient::get` calls it
issued and how many network dispatches those performed in total. -/
structure SearchTrace where
  get_calls : Nat
  dispatches : Nat
  deriving DecidableEq

/-- `parse_search_html_parallel` (`src/client/search/mod.rs` lines
685-699): split the document into per-item fragments, map the per-item
extractor over them, and collect into a single `Result` — order
preserving, failing the whole call on the first per-item failure. -/
def parse_search_html_parallel (env : SearchEnv Item) (html : String) :
    Except DlsiteError (List Item) :=
  (env.split_items html).mapM env.parse_item

/-- `SearchClient::search_product` (`src/client/search/mod.rs` lines
112-152).  On a result-cache hit: one `DlsiteClient::get` for the query
path, decode the envelope, pair the cached items with the decoded count.
On a miss: get, decode, bulk-parallel parse, cache the items keyed by
the query signature, return items and count. -/
def SearchClient.search_product (cfg : RetryConfig) (env : SearchEnv Item)
    (base_url query_path : String) (st : SearchState Item) :
    Except DlsiteError (SearchResult Item) × SearchState Item × SearchTrace :=
  match st.result_cache.get query_path env.rc_now with
  | (some cached_products, rc2) =>
    match DlsiteClient.get cfg env.get_env base_url query_path st.client with
    | (Except.error e, cs2, gtr) =>
      (Except.error e, ⟨cs2, rc2⟩, ⟨1, gtr.dispatches⟩)
    | (Except.ok json, cs2, gtr) =>
      match env.parse_ajax json with
      | Except.error e => (Except.error e, ⟨cs2, rc2⟩, ⟨1, gtr.dispatches⟩)
      | Except.ok aj =>
        (Except.ok ⟨cached_products, aj.count, query_path⟩, ⟨cs2, rc2⟩, ⟨1, gtr.dispatches⟩)
  | (none, rc2) =>
    match DlsiteClient.get cfg env.get_env base_url query_path st.client with
    | (Except.error e, cs2, gtr) =>
      (Except.error e, ⟨cs2, rc2⟩, ⟨1, gtr.dispatches⟩)
    | (Except.ok json, cs2, gtr) =>
      match env.parse_ajax json with
      | Except.error e => (Except.error e, ⟨cs2, rc2⟩, ⟨1, gtr.dispatches⟩)
      | Except.ok aj =>
        match parse_search_html_parallel env aj.search_result with
        | Except.error e => (Except.error e, ⟨cs2, rc2⟩, ⟨1, gtr.dispatches⟩)
        | Except.ok products =>
          (Except.ok ⟨products, aj.count, query_path⟩,
           ⟨cs2, rc2.insert query_path products env.rc_insert_now⟩,
           ⟨1, gtr.dispatches⟩)

/-- The per-item loop body of `SearchClient::search_product_stream`
(`src/client/search/mod.rs` lines 191-198): walk the fragments in
document order, keep each successfully parsed item (one callback
invocation each, in order), and skip — after logging — each fragment
whose parse fails. -/
def streamEmit (p : String → Except DlsiteError Item) : List String → List Item
  | [] => []
  | frag :: rest =>
    match p frag with
    | Except.ok item => item :: streamEmit p rest
    | Except.error _ => streamEmit p rest

/-- `SearchClient::search_product_stream` (`src/client/search/mod.rs`
lines 180-201): fetch and decode the envelope, then walk the item
fragments in document order, invoking the callback on each successful
per-item parse and skipping (logging) failures; the returned count is
the envelope's `page_info.count`.  The callback's invocation sequence is
returned as the second component. -/
def SearchClient.search_product_stream (cfg : RetryConfig) (env : SearchEnv Item)
    (base_url query_path : String) (st : SearchState Item) :
    Except DlsiteError Int × List Item × SearchState Item × SearchTrace :=
  match DlsiteClient.get cfg env.get_env base_url query_path st.client with
  | (Except.error e, cs2, gtr) =>
    (Except.error e, [], ⟨cs2, st.result_cache⟩, ⟨1, gtr.dispatches⟩)
  | (Except.ok json, cs2, gtr) =>
    match env.parse_ajax json with
    | Except.error e => (Except.error e, [], ⟨cs2, st.result_cache⟩, ⟨1, gtr.dispatches⟩)
    | Except.ok aj =>
      (Except.ok aj.count, streamEmit env.parse_item (env.split_items aj.search_result),
       ⟨cs2, st.result_cache⟩, ⟨1, gtr.dispatches⟩)

/-! Association-list lemmas for the LRU model. -/

/-- Unfolding lemma for `List.lookup` on a cons cell, phrased with a
propositional key comparison. -/
theorem lookup_cons_eq (k k' : String) (v : α) (t : List (String × α)) :
    ((k', v) :: t).lookup k = if k = k' then some v else t.lookup k := by
  simp only [List.lookup]
  by_cases h : k = k'
  · simp [h]
  · have hb : (k == k') = false := beq_eq_false_iff_ne.mpr h
    simp [h, hb]

/-- Unfolding lemma for `eraseKey` on a cons cell. -/
theorem eraseKey_cons (k : String) (p : String × α) (t : List (String × α)) :
    eraseKey k (p :: t) = if p.1 = k then eraseKey k t else p :: eraseKey k t := by
  simp only [eraseKey, List.filter_cons]
  by_cases h : p.1 = k
  · simp [h]
  · simp [h]

/-- Erasing a key makes it unfindable. -/
theorem eraseKey_lookup (k : String) (l : List (String × α)) :
    (eraseKey k l).lookup k = none := by
  induction l with
  | nil => rfl
  | cons p t ih =>
    rw [eraseKey_cons]
    by_cases h : p.1 = k
    · simp [h, ih]
    · rcases p with ⟨k', v⟩
      simp only at h
      rw [if_neg h, lookup_cons_eq, if_neg (fun hkk => h hkk.symm)]
      exact ih

/-- Erasing a key never lengthens the list. -/
theorem length_eraseKey_le (k : String) (l : List (String × α)) :
    (eraseKey k l).length ≤ l.length :=
  List.length_filter_le _ _

/-- Erasing a present key strictly shortens the list. -/
theorem length_eraseKey_lt (k : String) (l : List (String × α))
    (h : (l.lookup k).isSome) : (eraseKey k l).length < l.length := by
  induction l with
  | nil => simp [List.lookup] at h
  | cons p t ih =>
    rcases p with ⟨k', v⟩
    rw [eraseKey_cons]
    by_cases hk : k' = k
    · simp only [hk, if_pos rfl]
      exact Nat.lt_succ_of_le (length_eraseKey_le k t)
    · rw [lookup_cons_eq, if_neg (fun hkk => hk hkk.symm)] at h
      rw [if_neg hk]
      simpa using Nat.succ_lt_succ (ih h)

/-! Cache-operation lemmas. -/

/-- `insert` keeps the configured capacity. -/
theorem insert_cap (c : GenericCache V) (k : String) (v : V) (now : Nat) :
    (c.insert k v now).cap = c.cap := rfl

/-- One `insert` preserves the capacity bound on the number of
entries. -/
theorem insert_length_le (c : GenericCache V) (k : String) (v : V) (now : Nat)
    (hle : c.entries.length ≤ c.cap) (hc : 0 < c.cap) :
    (c.insert k v now).entries.length ≤ c.cap := by
  simp only [GenericCache.insert, LruModel.put]
  split
  · next hsome =>
    have := length_eraseKey_lt k c.entries hsome
    simp only [List.length_cons]
    omega
  · split
    · next hlen => simp only [List.length_cons]; omega
    · next hsome hlen =>
      have hdl : c.entries.dropLast.length = c.entries.length - 1 := List.length_dropLast _
      simp only [List.length_cons, hdl]
      omega

/-- Any sequence of inserts preserves the capacity bound. -/
theorem foldl_insert_length_le (now : Nat) (ops : List (String × V)) :
    ∀ (c : GenericCache V), c.entries.length ≤ c.cap → 0 < c.cap →
    (ops.foldl (fun acc kv => acc.insert kv.1 kv.2 now) c).entries.length ≤ c.cap := by
  induction ops with
  | nil => intro c h _; simpa using h
  | cons kv t ih =>
    intro c h hc
    simp only [List.foldl_cons]
    have h2 := insert_length_le c kv.1 kv.2 now h hc
    have h3 := ih (c.insert kv.1 kv.2 now) h2 hc
    simpa using h3

/-- Inserting a fresh key into a full cache evicts exactly the last —
least recently used — entry. -/
theorem insert_full_new_key (c : GenericCache V) (k : String) (v : V) (now : Nat)
    (hfull : c.entries.length = c.cap) (hnew : c.entries.lookup k = none) :
    (c.insert k v now).entries = (k, ⟨v, now + c.ttl⟩) :: c.entries.dropLast := by
  simp only [GenericCache.insert, LruModel.put, hnew, Option.isSome_none, Bool.false_eq_true,
    if_false, hfull, lt_irrefl, ite_false]

/-- A `get` hit on a fresh entry returns its value and promotes the
entry to the most-recently-used position, leaving the other entries in
place. -/
theorem get_hit_promotes (c : GenericCache V) (k : String) (now : Nat) (entry : CacheEntry V)
    (hl : c.entries.lookup k = some entry) (hf : entry.is_expired now = false) :
    c.get k now = (some entry.data, ⟨(k, entry) :: eraseKey k c.entries, c.cap, c.ttl⟩) := by
  simp only [GenericCache.get, hl, hf, Bool.false_eq_true, if_false]

/-- Re-inserting an existing key replaces its entry, promotes it, keeps
every other entry, and never grows the cache. -/
theorem insert_existing_key (c : GenericCache V) (k : String) (v : V) (now : Nat)
    (entry : CacheEntry V) (hl : c.entries.lookup k = some entry) :
    (c.insert k v now).entries = (k, ⟨v, now + c.ttl⟩) :: eraseKey k c.entries ∧
    (c.insert k v now).entries.length ≤ c.entries.length := by
  constructor
  · simp only [GenericCache.insert, LruModel.put, hl, Option.isSome_some, if_true]
  · simp only [GenericCache.insert, LruModel.put, hl, Option.isSome_some, if_true,
      List.length_cons]
    have hs : (c.entries.lookup k).isSome := by rw [hl]; rfl
    have := length_eraseKey_lt k c.entries hs
    omega

/-- Whatever branch `put` takes, the just-inserted entry sits at the
front, so it is what a subsequent lookup finds. -/
theorem insert_lookup_self (c : GenericCache V) (k : String) (v : V) (t0 : Nat) :
    (c.insert k v t0).entries.lookup k = some ⟨v, t0 + c.ttl⟩ := by
  simp only [GenericCache.insert, LruModel.put]
  split
  · rw [lookup_cons_eq, if_pos rfl]
  · split
    · rw [lookup_cons_eq, if_pos rfl]
    · rw [lookup_cons_eq, if_pos rfl]

/-- A `get` within the TTL window returns the inserted value. -/
theorem get_after_insert_fresh (c : GenericCache V) (k : String) (v : V) (t0 t : Nat)
    (h : t ≤ t0 + c.ttl) :
    ((c.insert k v t0).get k t).1 = some v := by
  have hl := insert_lookup_self c k v t0
  have hexp : (CacheEntry.mk v (t0 + c.ttl)).is_expired t = false := by
    simp [CacheEntry.is_expired]; omega
  simp only [GenericCache.get, hl, hexp, Bool.false_eq_true, if_false]

/-- A `get` after the TTL window treats the entry as absent and
physically removes it. -/
theorem get_after_insert_expired (c : GenericCache V) (k : String) (v : V) (t0 t : Nat)
    (h : t0 + c.ttl < t) :
    ((c.insert k v t0).get k t).1 = none ∧
    ((c.insert k v t0).get k t).2.entries.lookup k = none := by
  have hl := insert_lookup_self c k v t0
  have hexp : (CacheEntry.mk v (t0 + c.ttl)).is_expired t = true := by
    simp [CacheEntry.is_expired]; omega
  constructor
  · simp only [GenericCache.get, hl, hexp, if_true]
  · simp only [GenericCache.get, hl, hexp, if_true]
    exact eraseKey_lookup _ _

/-- Whenever `get` returns a value, the backing entry had not expired at
the clock reading used for the lookup. -/
theorem get_some_not_expired (c : GenericCache V) (k : String) (now : Nat) (v : V)
    (c2 : GenericCache V) (h : c.get k now = (some v, c2)) :
    ∃ entry, c.entries.lookup k = some entry ∧ entry.data = v ∧ now ≤ entry.expires_at := by
  cases hl : c.entries.lookup k with
  | none => simp only [GenericCache.get, hl] at h; simp at h
  | some entry =>
    simp only [GenericCache.get, hl] at h
    by_cases he : entry.is_expired now = true
    · rw [if_pos he] at h; simp at h
    · rw [if_neg he] at h
      simp only [Prod.mk.injEq, Option.some.injEq] at h
      refine ⟨entry, rfl, h.1, ?_⟩
      simp only [CacheEntry.is_expired, decide_eq_true_eq] at he
      omega

/-! `Except` plumbing lemmas for the parse pipeline. -/

/-- Bind after a success just continues. -/
theorem ok_bind (x : α) (g : α → Except ε β) : (Except.ok x >>= g) = g x := rfl

/-- Bind after an error keeps the error. -/
theorem error_bind (e : ε) (g : α → Except ε β) :
    ((Except.error e : Except ε α) >>= g) = Except.error e := rfl

/-- `mapM` over a list whose prefix succeeds and which then hits a
failing element returns exactly that element's error. -/
theorem mapM_first_error (p : String → Except DlsiteError Item) (err : DlsiteError)
    (bad : String) (l2 : List String) :
    ∀ l1 : List String, (∀ f ∈ l1, ∃ it, p f = Except.ok it) →
    p bad = Except.error err →
    (l1 ++ bad :: l2).mapM p = Except.error err := by
  intro l1
  induction l1 with
  | nil =>
    intro _ hbad
    simp only [List.nil_append, List.mapM_cons, hbad, error_bind]
  | cons f t ih =>
    intro hok hbad
    obtain ⟨it, hit⟩ := hok f (List.mem_cons_self f t)
    have ht : ∀ g ∈ t, ∃ it, p g = Except.ok it := fun g hg => hok g (List.mem_cons_of_mem f hg)
    simp only [List.cons_append, List.mapM_cons, hit, ok_bind, ih ht hbad, error_bind]

/-- The streaming loop emits exactly the successfully parsed items, in
document order. -/
theorem streamEmit_eq_filterMap (p : String → Except DlsiteError Item) :
    ∀ l : List String, streamEmit p l = l.filterMap (fun f => (p f).toOption) := by
  intro l
  induction l with
  | nil => rfl
  | cons f t ih =>
    cases hf : p f with
    | ok it =>
      have hsome : (p f).toOption = some it := by rw [hf]; rfl
      simp only [streamEmit, hf, List.filterMap_cons, hsome, ih]
      rfl
    | error e =>
      have hnone : (p f).toOption = none := by rw [hf]; rfl
      simp only [streamEmit, hf, List.filterMap_cons, hnone, ih]
      rfl

/-- When every element parses, the emitted list has one item per
element. -/
theorem filterMap_length_all_ok (p : String → Except DlsiteError Item) :
    ∀ l : List String, (∀ f ∈ l, ∃ it, p f = Except.ok it) →
    (l.filterMap (fun f => (p f).toOption)).length = l.length := by
  intro l
  induction l with
  | nil => intro _; rfl
  | cons f t ih =>
    intro hok
    obtain ⟨it, hit⟩ := hok f (List.mem_cons_self f t)
    have ht : ∀ g ∈ t, ∃ it, p g = Except.ok it := fun g hg => hok g (List.mem_cons_of_mem f hg)
    have hsome : (p f).toOption = some it := by rw [hit]; rfl
    simp only [List.filterMap_cons, hsome, List.length_cons, ih ht]

/-! Claim theorems. -/

/-- Claim C1 (code-bug evidence).  The claim states that after every
wait-then-stamp execution the stored last-dispatch timestamp equals the
clock reading taken after the wait completed.  The code instead stores
the reading taken before the wait (`src/client/mod.rs` lines 140-153):
starting from a stamp of 1000, a call whose pre-wait reading is 1100
sleeps 400ms, dispatches at 1500, yet stores 1100 — not the post-wait
1500 — so a follow-up call reading 1600 sees 500ms elapsed, does not
wait, and dispatches only 100ms after the previous dispatch, below the
500ms minimum interval the code's own comments promise. -/
theorem c1_rate_limiter_stores_pre_wait_time :
    (DlsiteClient.get RetryConfig.default
        ⟨fun _ => TransportOutcome.success 200 (Except.ok "bodyB"), fun _ => 1100, 0⟩
        "" "p" ⟨⟨[], 100, 3600000⟩, 1000⟩).2.1.last_request_time = 1100 ∧
    (DlsiteClient.get RetryConfig.default
        ⟨fun _ => TransportOutcome.success 200 (Except.ok "bodyB"), fun _ => 1100, 0⟩
        "" "p" ⟨⟨[], 100, 3600000⟩, 1000⟩).2.2.rate_sleeps = [400] ∧
    (DlsiteClient.get RetryConfig.default
        ⟨fun _ => TransportOutcome.success 200 (Except.ok "bodyB"), fun _ => 1100, 0⟩
        "" "p" ⟨⟨[], 100, 3600000⟩, 1000⟩).2.2.dispatch_times = [1500] ∧
    (1100 : Nat) ≠ 1500 ∧
    (DlsiteClient.get RetryConfig.default
        ⟨fun _ => TransportOutcome.success 200 (Except.ok "bodyC"), fun _ => 1600, 0⟩
        "" "q"
        (DlsiteClient.get RetryConfig.default
          ⟨fun _ => TransportOutcome.success 200 (Except.ok "bodyB"), fun _ => 1100, 0⟩
          "" "p" ⟨⟨[], 100, 3600000⟩, 1000⟩).2.1).2.2.dispatch_times = [1600] ∧
    1600 - 1500 < 500 := by
  decide

/-- Claim C2 (counterexample).  The claim states that a transport-level
timeout observed with `attempt < max_retries` is mapped to a retryable
error kind, remembered, backed off and retried.  In the code the
thiserror-derived conversion maps every transport error — timeouts
included — to the `Reqwest` variant, for which `is_retryable` is false,
so with the default configuration (`max_retries = 3 > 0`) a first-attempt
timeout is returned at once: one dispatch, no back-off sleep. -/
theorem c2_timeout_not_retried_cex :
    DlsiteClient.get RetryConfig.default
        ⟨fun _ => TransportOutcome.failure TransportError.timedOut, fun _ => 1000, 0⟩
        "" "p" ⟨⟨[], 100, 3600000⟩, 0⟩ =
      (Except.error (DlsiteError.reqwest TransportError.timedOut),
       ⟨⟨[], 100, 3600000⟩, 1000⟩, ⟨1, [1000], [], []⟩) ∧
    RetryConfig.default.is_retryable (DlsiteError.from_reqwest TransportError.timedOut) =
      false ∧
    0 < RetryConfig.default.max_retries := by
  decide

/-- Claim C2 (amended).  Every transport-level failure (timeout or
connection error) observed by the retry loop is mapped through the
`From` conversion to the `Reqwest` error kind, for which `is_retryable`
returns false, so — regardless of how many attempts remain — the loop
returns that error immediately: exactly one further dispatch and no
back-off sleep. -/
theorem c2_transport_failure_returned_immediately (cfg : RetryConfig) (env : GetEnv)
    (url : String) (fuel attempt : Nat) (s : ClientState) (tr : GetTrace)
    (le0 : Option DlsiteError) (e : TransportError)
    (h : env.outcomes attempt = TransportOutcome.failure e) :
    (DlsiteClient.getLoop cfg env url (fuel + 1) attempt s tr le0).1 =
      Except.error (DlsiteError.from_reqwest e) ∧
    (DlsiteClient.getLoop cfg env url (fuel + 1) attempt s tr le0).2.2.dispatches =
      tr.dispatches + 1 ∧
    (DlsiteClient.getLoop cfg env url (fuel + 1) attempt s tr le0).2.2.backoff_sleeps =
      tr.backoff_sleeps ∧
    cfg.is_retryable (DlsiteError.from_reqwest e) = false := by
  have hr : cfg.is_retryable (DlsiteError.from_reqwest e) = false := rfl
  refine ⟨?_, ?_, ?_, hr⟩ <;>
    simp only [DlsiteClient.getLoop, h, hr, Bool.false_eq_true, and_false, if_false] <;>
    split <;> rfl

/-- Concrete instance of `c2_transport_failure_returned_immediately`: a
first-attempt connection failure under the default configuration is
returned at once with one dispatch and no back-off. -/
theorem c2_transport_failure_returned_immediately_witness :
    (DlsiteClient.getLoop RetryConfig.default
        ⟨fun _ => TransportOutcome.failure TransportError.connect, fun _ => 1000, 0⟩
        "u" 4 0 ⟨⟨[], 100, 50⟩, 0⟩ GetTrace.empty none).1 =
      Except.error (DlsiteError.from_reqwest TransportError.connect) ∧
    (DlsiteClient.getLoop RetryConfig.default
        ⟨fun _ => TransportOutcome.failure TransportError.connect, fun _ => 1000, 0⟩
        "u" 4 0 ⟨⟨[], 100, 50⟩, 0⟩ GetTrace.empty none).2.2.dispatches = 1 ∧
    (DlsiteClient.getLoop RetryConfig.default
        ⟨fun _ => TransportOutcome.failure TransportError.connect, fun _ => 1000, 0⟩
        "u" 4 0 ⟨⟨[], 100, 50⟩, 0⟩ GetTrace.empty none).2.2.backoff_sleeps = [] ∧
    RetryConfig.default.is_retryable (DlsiteError.from_reqwest TransportError.connect) =
      false :=
  c2_transport_failure_returned_immediately RetryConfig.default
    ⟨fun _ => TransportOutcome.failure TransportError.connect, fun _ => 1000, 0⟩
    "u" 3 0 ⟨⟨[], 100, 50⟩, 0⟩ GetTrace.empty none TransportError.connect rfl

/-- Claim C3 (counterexample).  The claim states that on a result-cache
hit the total count is never served from any cache.  But the count
comes from the body returned by `DlsiteClient::get`, and `get` serves an
unexpired response-cache entry without dispatching: with the query
signature in the result cache and the signature's URL in the response
cache holding an older body whose envelope carries count 5, the call
returns count 5 with zero network dispatches, although the transport
would have answered a body whose envelope carries count 7. -/
theorem c3_count_served_from_response_cache_cex :
    (SearchClient.search_product RetryConfig.default
        (⟨⟨fun _ => TransportOutcome.success 200 (Except.ok "newbody"), fun _ => 5000, 0⟩,
          fun s =>
            if s = "oldbody" then Except.ok ⟨"oldhtml", 5⟩
            else if s = "newbody" then Except.ok ⟨"newhtml", 7⟩
            else Except.error (DlsiteError.serdeJson "bad"),
          fun _ => [], fun _ => Except.error (DlsiteError.parse "no"), 0, 0⟩ :
          SearchEnv Nat)
        "" "q"
        ⟨⟨⟨[("q", ⟨"oldbody", 1000⟩)], 100, 3600000⟩, 0⟩,
         ⟨[("q", ⟨[1, 2], 1000⟩)], 100, 3600000⟩⟩).1 =
      Except.ok ⟨[1, 2], 5, "q"⟩ ∧
    (SearchClient.search_product RetryConfig.default
        (⟨⟨fun _ => TransportOutcome.success 200 (Except.ok "newbody"), fun _ => 5000, 0⟩,
          fun s =>
            if s = "oldbody" then Except.ok ⟨"oldhtml", 5⟩
            else if s = "newbody" then Except.ok ⟨"newhtml", 7⟩
            else Except.error (DlsiteError.serdeJson "bad"),
          fun _ => [], fun _ => Except.error (DlsiteError.parse "no"), 0, 0⟩ :
          SearchEnv Nat)
        "" "q"
        ⟨⟨⟨[("q", ⟨"oldbody", 1000⟩)], 100, 3600000⟩, 0⟩,
         ⟨[("q", ⟨[1, 2], 1000⟩)], 100, 3600000⟩⟩).2.2 = ⟨1, 0⟩ ∧
    (if "newbody" = "oldbody" then Except.ok (⟨"oldhtml", 5⟩ : SearchAjaxResult)
     else if "newbody" = "newbody" then Except.ok ⟨"newhtml", 7⟩
     else Except.error (DlsiteError.serdeJson "bad")) = Except.ok ⟨"newhtml", 7⟩ ∧
    (5 : Int) ≠ 7 := by
  decide

/-- Claim C3 (amended).  On a result-cache hit, `search_product` still
issues exactly one `DlsiteClient::get` for the signature's path and
pairs the cached items with the count decoded from the body that `get`
returned; the count is never served from the result cache, but `get`
itself may satisfy the request from the response cache, in which case
the count too originates there. -/
theorem c3_hit_refetches_count_from_get_body (cfg : RetryConfig) (env : SearchEnv Item)
    (base_url query_path : String) (st : SearchState Item) (items : List Item)
    (rc2 : GenericCache (List Item)) (body : String) (cs2 : ClientState) (gtr : GetTrace)
    (aj : SearchAjaxResult)
    (h1 : st.result_cache.get query_path env.rc_now = (some items, rc2))
    (h2 : DlsiteClient.get cfg env.get_env base_url query_path st.client =
      (Except.ok body, cs2, gtr))
    (h3 : env.parse_ajax body = Except.ok aj) :
    SearchClient.search_product cfg env base_url query_path st =
      (Except.ok ⟨items, aj.count, query_path⟩, ⟨cs2, rc2⟩, ⟨1, gtr.dispatches⟩) := by
  simp only [SearchClient.search_product, h1, h2, h3]

/-- Concrete instance of `c3_hit_refetches_count_from_get_body`: a
result-cache hit with a transport-served body pairs the cached items
with the freshly decoded count, over exactly one `get` call. -/
theorem c3_hit_refetches_count_from_get_body_witness :
    (⟨⟨⟨[], 100, 50⟩, 0⟩, ⟨[("q", ⟨[1, 2], 10⟩)], 100, 50⟩⟩ :
        SearchState Nat).result_cache.get "q" 0 =
      (some [1, 2], ⟨[("q", ⟨[1, 2], 10⟩)], 100, 50⟩) ∧
    SearchClient.search_product RetryConfig.default
        (⟨⟨fun _ => TransportOutcome.success 200 (Except.ok "body"), fun _ => 1000, 0⟩,
          fun s =>
            if s = "body" then Except.ok ⟨"html", 7⟩
            else Except.error (DlsiteError.serdeJson "bad"),
          fun _ => [], fun _ => Except.error (DlsiteError.parse "no"), 0, 0⟩ :
          SearchEnv Nat)
        "" "q" ⟨⟨⟨[], 100, 50⟩, 0⟩, ⟨[("q", ⟨[1, 2], 10⟩)], 100, 50⟩⟩ =
      (Except.ok ⟨[1, 2], 7, "q"⟩,
       ⟨⟨⟨[("q", ⟨"body", 1050⟩)], 100, 50⟩, 1000⟩, ⟨[("q", ⟨[1, 2], 10⟩)], 100, 50⟩⟩,
       ⟨1, 1⟩) :=
  ⟨by decide,
   c3_hit_refetches_count_from_get_body RetryConfig.default
    (⟨⟨fun _ => TransportOutcome.success 200 (Except.ok "body"), fun _ => 1000, 0⟩,
      fun s =>
        if s = "body" then Except.ok ⟨"html", 7⟩
        else Except.error (DlsiteError.serdeJson "bad"),
      fun _ => [], fun _ => Except.error (DlsiteError.parse "no"), 0, 0⟩ :
      SearchEnv Nat)
    "" "q" ⟨⟨⟨[], 100, 50⟩, 0⟩, ⟨[("q", ⟨[1, 2], 10⟩)], 100, 50⟩⟩ [1, 2]
    ⟨[("q", ⟨[1, 2], 10⟩)], 100, 50⟩ "body"
    ⟨⟨[("q", ⟨"body", 1050⟩)], 100, 50⟩, 1000⟩ ⟨1, [1000], [], []⟩ ⟨"html", 7⟩
    (by decide) (by decide) (by decide)⟩

/-- Claim C4.  A `DlsiteClient::get` whose full URL has an unexpired
entry in the response cache returns the cached body immediately: the
stored last-dispatch timestamp is unchanged and the trace is empty — no
rate-limiter sleep, no dispatch, no retry bookkeeping. -/
theorem c4_response_cache_hit_returns_immediately (cfg : RetryConfig) (env : GetEnv)
    (base_url path : String) (s : ClientState) (body : String) (cache2 : ResponseCache)
    (h : s.cache.get (base_url ++ path) env.check_now = (some body, cache2)) :
    DlsiteClient.get cfg env base_url path s =
      (Except.ok body, { s with cache := cache2 }, GetTrace.empty) := by
  simp only [DlsiteClient.get, h]

/-- Concrete instance of `c4_response_cache_hit_returns_immediately`. -/
theorem c4_response_cache_hit_returns_immediately_witness :
    (⟨⟨[("u", ⟨"body", 10⟩)], 100, 50⟩, 777⟩ : ClientState).cache.get ("" ++ "u") 0 =
      (some "body", ⟨[("u", ⟨"body", 10⟩)], 100, 50⟩) ∧
    DlsiteClient.get RetryConfig.default
        ⟨fun _ => TransportOutcome.failure TransportError.connect, fun _ => 0, 0⟩
        "" "u" ⟨⟨[("u", ⟨"body", 10⟩)], 100, 50⟩, 777⟩ =
      (Except.ok "body", ⟨⟨[("u", ⟨"body", 10⟩)], 100, 50⟩, 777⟩, GetTrace.empty) :=
  ⟨by decide,
   c4_response_cache_hit_returns_immediately RetryConfig.default
    ⟨fun _ => TransportOutcome.failure TransportError.connect, fun _ => 0, 0⟩
    "" "u" ⟨⟨[("u", ⟨"body", 10⟩)], 100, 50⟩, 777⟩ "body"
    ⟨[("u", ⟨"body", 10⟩)], 100, 50⟩ (by decide)⟩

/-- Claim C5.  (i) Any sequence of inserts into a cache of positive
capacity keeps `len ≤ capacity` (every intermediate state is the fold of
a prefix, so the bound holds after every insert); (ii) inserting a new
key into a full cache evicts exactly the least-recently-used (last)
entry; (iii) a `get` hit refreshes recency by promoting the entry to the
most-recently-used position while keeping all other entries; (iv)
re-inserting an existing key replaces and promotes its entry without
evicting anything. -/
theorem c5_capacity_lru_eviction_recency :
    (∀ (V : Type) (now : Nat) (c0 : GenericCache V) (ops : List (String × V)),
      c0.entries.length ≤ c0.cap → 0 < c0.cap →
      (ops.foldl (fun acc kv => acc.insert kv.1 kv.2 now) c0).entries.length ≤ c0.cap) ∧
    (∀ (V : Type) (now : Nat) (c : GenericCache V) (k : String) (v : V),
      c.entries.length = c.cap → c.entries.lookup k = none →
      (c.insert k v now).entries = (k, ⟨v, now + c.ttl⟩) :: c.entries.dropLast) ∧
    (∀ (V : Type) (now : Nat) (c : GenericCache V) (k : String) (entry : CacheEntry V),
      c.entries.lookup k = some entry → entry.is_expired now = false →
      c.get k now = (some entry.data, ⟨(k, entry) :: eraseKey k c.entries, c.cap, c.ttl⟩)) ∧
    (∀ (V : Type) (now : Nat) (c : GenericCache V) (k : String) (v : V)
        (entry : CacheEntry V),
      c.entries.lookup k = some entry →
      (c.insert k v now).entries = (k, ⟨v, now + c.ttl⟩) :: eraseKey k c.entries ∧
      (c.insert k v now).entries.length ≤ c.entries.length) :=
  ⟨fun _ now c0 ops h hc => foldl_insert_length_le now ops c0 h hc,
   fun _ now c k v hfull hnew => insert_full_new_key c k v now hfull hnew,
   fun _ now c k entry hl hf => get_hit_promotes c k now entry hl hf,
   fun _ now c k v entry hl => insert_existing_key c k v now entry hl⟩

/-- Concrete instances of `c5_capacity_lru_eviction_recency`: three
inserts into a capacity-2 cache keep two entries; a third distinct key
evicts the least-recently-used one; a hit promotes; re-insertion
replaces without eviction. -/
theorem c5_capacity_lru_eviction_recency_witness :
    (([("k1", "v1"), ("k2", "v2"), ("k3", "v3")] : List (String × String)).foldl
        (fun acc kv => acc.insert kv.1 kv.2 0)
        (⟨[], 2, 60⟩ : GenericCache String)).entries.length ≤ 2 ∧
    ((⟨[("k3", ⟨"v3", 60⟩), ("k2", ⟨"v2", 60⟩)], 2, 60⟩ : GenericCache String).insert
        "k9" "v9" 0).entries =
      ("k9", ⟨"v9", 0 + 60⟩) ::
        ([("k3", (⟨"v3", 60⟩ : CacheEntry String)), ("k2", ⟨"v2", 60⟩)]).dropLast ∧
    (⟨[("a", ⟨"x", 60⟩), ("b", ⟨"y", 70⟩)], 2, 60⟩ : GenericCache String).get "b" 0 =
      (some "y",
       ⟨("b", ⟨"y", 70⟩) :: eraseKey "b" [("a", ⟨"x", 60⟩), ("b", ⟨"y", 70⟩)], 2, 60⟩) ∧
    ((⟨[("a", ⟨"x", 60⟩), ("b", ⟨"y", 70⟩)], 2, 60⟩ : GenericCache String).insert
        "a" "z" 5).entries =
      ("a", ⟨"z", 5 + 60⟩) :: eraseKey "a" [("a", ⟨"x", 60⟩), ("b", ⟨"y", 70⟩)] ∧
    ((⟨[("a", ⟨"x", 60⟩), ("b", ⟨"y", 70⟩)], 2, 60⟩ : GenericCache String).insert
        "a" "z" 5).entries.length ≤ 2 :=
  ⟨c5_capacity_lru_eviction_recency.1 String 0 ⟨[], 2, 60⟩
    [("k1", "v1"), ("k2", "v2"), ("k3", "v3")] (by decide) (by decide),
   c5_capacity_lru_eviction_recency.2.1 String 0
    ⟨[("k3", ⟨"v3", 60⟩), ("k2", ⟨"v2", 60⟩)], 2, 60⟩ "k9" "v9" (by decide) (by decide),
   c5_capacity_lru_eviction_recency.2.2.1 String 0
    ⟨[("a", ⟨"x", 60⟩), ("b", ⟨"y", 70⟩)], 2, 60⟩ "b" ⟨"y", 70⟩ (by decide) (by decide),
   (c5_capacity_lru_eviction_recency.2.2.2 String 5
    ⟨[("a", ⟨"x", 60⟩), ("b", ⟨"y", 70⟩)], 2, 60⟩ "a" "z" ⟨"x", 60⟩ (by decide)).1,
   (c5_capacity_lru_eviction_recency.2.2.2 String 5
    ⟨[("a", ⟨"x", 60⟩), ("b", ⟨"y", 70⟩)], 2, 60⟩ "a" "z" ⟨"x", 60⟩ (by decide)).2⟩

/-- Claim C6.  A value returned by `get` is never past its entry's
expiry at the instant of return; an entry inserted at `t0` with the
cache's TTL is returned by a `get` at any `t ≤ t0 + ttl` (in particular
before the TTL has elapsed); and a `get` after the TTL has elapsed
returns nothing and physically removes the entry. -/
theorem c6_get_never_returns_expired :
    (∀ (V : Type) (c : GenericCache V) (k : String) (now : Nat) (v : V)
        (c2 : GenericCache V),
      c.get k now = (some v, c2) →
      ∃ entry, c.entries.lookup k = some entry ∧ entry.data = v ∧
        now ≤ entry.expires_at) ∧
    (∀ (V : Type) (c : GenericCache V) (k : String) (v : V) (t0 t : Nat),
      t ≤ t0 + c.ttl → ((c.insert k v t0).get k t).1 = some v) ∧
    (∀ (V : Type) (c : GenericCache V) (k : String) (v : V) (t0 t : Nat),
      t0 + c.ttl < t →
      ((c.insert k v t0).get k t).1 = none ∧
      ((c.insert k v t0).get k t).2.entries.lookup k = none) :=
  ⟨fun _ c k now v c2 h => get_some_not_expired c k now v c2 h,
   fun _ c k v t0 t h => get_after_insert_fresh c k v t0 t h,
   fun _ c k v t0 t h => get_after_insert_expired c k v t0 t h⟩

/-- Concrete instances of `c6_get_never_returns_expired` with TTL 5:
a hit at `t = 3` on an entry expiring at 10, a fresh read at `t = 5`
after an insert at 0, and an expired read at `t = 6` that removes the
entry. -/
theorem c6_get_never_returns_expired_witness :
    (⟨[("k", ⟨"v", 10⟩)], 1, 5⟩ : GenericCache String).get "k" 3 =
      (some "v", ⟨[("k", ⟨"v", 10⟩)], 1, 5⟩) ∧
    (∃ entry, ([("k", (⟨"v", 10⟩ : CacheEntry String))]).lookup "k" = some entry ∧
      entry.data = "v" ∧ 3 ≤ entry.expires_at) ∧
    (((⟨[], 1, 5⟩ : GenericCache String).insert "k" "v" 0).get "k" 5).1 = some "v" ∧
    (((⟨[], 1, 5⟩ : GenericCache String).insert "k" "v" 0).get "k" 6).1 = none ∧
    (((⟨[], 1, 5⟩ : GenericCache String).insert "k" "v" 0).get "k" 6).2.entries.lookup
      "k" = none :=
  ⟨by decide,
   c6_get_never_returns_expired.1 String ⟨[("k", ⟨"v", 10⟩)], 1, 5⟩ "k" 3 "v"
    ⟨[("k", ⟨"v", 10⟩)], 1, 5⟩ (by decide),
   c6_get_never_returns_expired.2.1 String ⟨[], 1, 5⟩ "k" "v" 0 5 (by decide),
   (c6_get_never_returns_expired.2.2 String ⟨[], 1, 5⟩ "k" "v" 0 6 (by decide)).1,
   (c6_get_never_returns_expired.2.2 String ⟨[], 1, 5⟩ "k" "v" 0 6 (by decide)).2⟩

/-- Claim C7.  `calculate_delay` on the default configuration yields
100ms, 200ms and 400ms at attempts 0, 1, 2, and for every configuration
and every attempt the computed delay — the capped product rounded down
to whole milliseconds — never exceeds `max_delay`. -/
theorem c7_backoff_delay_defaults_and_cap :
    RetryConfig.default.calculate_delay 0 = 100 ∧
    RetryConfig.default.calculate_delay 1 = 200 ∧
    RetryConfig.default.calculate_delay 2 = 400 ∧
    ∀ (cfg : RetryConfig) (attempt : Nat), cfg.calculate_delay attempt ≤ cfg.max_delay := by
  refine ⟨?_, ?_, ?_, ?_⟩
  · simp only [RetryConfig.calculate_delay, RetryConfig.default]
    norm_num
    rfl
  · simp only [RetryConfig.calculate_delay, RetryConfig.default]
    norm_num
    rfl
  · simp only [RetryConfig.calculate_delay, RetryConfig.default]
    norm_num
    rfl
  · intro cfg attempt
    simp only [RetryConfig.calculate_delay]
    have h1 : (⌊min ((cfg.initial_delay : ℚ) * cfg.backoff_multiplier ^ attempt)
        (cfg.max_delay : ℚ)⌋ : ℤ) ≤ ⌊(cfg.max_delay : ℚ)⌋ :=
      Int.floor_le_floor (min_le_right _ _)
    rw [Int.floor_natCast] at h1
    exact Int.toNat_le.mpr h1

/-- Claim C8.  For a fetched page whose fragment list is `l1 ++ bad :: l2`
with every element of `l1` and `l2` well-formed and `bad` malformed, the
bulk-parallel parse fails fast with the malformed fragment's error and
yields no items, while the streaming parse returns the envelope's
reported total count, invokes the callback once per well-formed fragment
in document order, and skips the malformed one. -/
theorem c8_bulk_fail_fast_stream_skip (cfg : RetryConfig) (env : SearchEnv Item)
    (base_url query_path : String) (st : SearchState Item) (body : String)
    (cs2 : ClientState) (gtr : GetTrace) (aj : SearchAjaxResult)
    (l1 : List String) (bad : String) (l2 : List String) (err : DlsiteError)
    (h2 : DlsiteClient.get cfg env.get_env base_url query_path st.client =
      (Except.ok body, cs2, gtr))
    (h3 : env.parse_ajax body = Except.ok aj)
    (h4 : env.split_items aj.search_result = l1 ++ bad :: l2)
    (h5 : env.parse_item bad = Except.error err)
    (h6 : ∀ f ∈ l1, ∃ it, env.parse_item f = Except.ok it)
    (h7 : ∀ f ∈ l2, ∃ it, env.parse_item f = Except.ok it) :
    parse_search_html_parallel env aj.search_result = Except.error err ∧
    (SearchClient.search_product_stream cfg env base_url query_path st).1 =
      Except.ok aj.count ∧
    (SearchClient.search_product_stream cfg env base_url query_path st).2.1 =
      l1.filterMap (fun f => (env.parse_item f).toOption) ++
        l2.filterMap (fun f => (env.parse_item f).toOption) ∧
    (SearchClient.search_product_stream cfg env base_url query_path st).2.1.length =
      l1.length + l2.length := by
  have hpar : parse_search_html_parallel env aj.search_result = Except.error err := by
    rw [parse_search_html_parallel, h4]
    exact mapM_first_error env.parse_item err bad l2 l1 h6 h5
  have hbadnone : (env.parse_item bad).toOption = none := by rw [h5]; rfl
  have hemit : (SearchClient.search_product_stream cfg env base_url query_path st).2.1 =
      l1.filterMap (fun f => (env.parse_item f).toOption) ++
        l2.filterMap (fun f => (env.parse_item f).toOption) := by
    simp only [SearchClient.search_product_stream, h2, h3, h4,
      streamEmit_eq_filterMap, List.filterMap_append, List.filterMap_cons, hbadnone]
  refine ⟨hpar, ?_, hemit, ?_⟩
  · simp only [SearchClient.search_product_stream, h2, h3]
  · rw [hemit, List.length_append, filterMap_length_all_ok env.parse_item l1 h6,
      filterMap_length_all_ok env.parse_item l2 h7]

/-- Concrete instance of `c8_bulk_fail_fast_stream_skip`: a page that
splits into fragments `["a", "bad", "bb"]`, of which "bad" is malformed,
makes the bulk parse fail with the parse error while the stream returns
count 42 and emits the two well-formed items in order. -/
theorem c8_bulk_fail_fast_stream_skip_witness :
    parse_search_html_parallel
        (⟨⟨fun _ => TransportOutcome.success 200 (Except.ok "body"), fun _ => 1000, 0⟩,
          fun s =>
            if s = "body" then Except.ok ⟨"html", 42⟩
            else Except.error (DlsiteError.serdeJson "bad"),
          fun _ => ["a", "bad", "bb"],
          fun f =>
            if f = "bad" then Except.error (DlsiteError.parse "x")
            else Except.ok f.length,
          0, 0⟩ : SearchEnv Nat) "html" =
      Except.error (DlsiteError.parse "x") ∧
    (SearchClient.search_product_stream RetryConfig.default
        (⟨⟨fun _ => TransportOutcome.success 200 (Except.ok "body"), fun _ => 1000, 0⟩,
          fun s =>
            if s = "body" then Except.ok ⟨"html", 42⟩
            else Except.error (DlsiteError.serdeJson "bad"),
          fun _ => ["a", "bad", "bb"],
          fun f =>
            if f = "bad" then Except.error (DlsiteError.parse "x")
            else Except.ok f.length,
          0, 0⟩ : SearchEnv Nat)
        "" "q" ⟨⟨⟨[], 100, 50⟩, 0⟩, ⟨[], 100, 50⟩⟩).1 = Except.ok 42 ∧
    (SearchClient.search_product_stream RetryConfig.default
        (⟨⟨fun _ => TransportOutcome.success 200 (Except.ok "body"), fun _ => 1000, 0⟩,
          fun s =>
            if s = "body" then Except.ok ⟨"html", 42⟩
            else Except.error (DlsiteError.serdeJson "bad"),
          fun _ => ["a", "bad", "bb"],
          fun f =>
            if f = "bad" then Except.error (DlsiteError.parse "x")
            else Except.ok f.length,
          0, 0⟩ : SearchEnv Nat)
        "" "q" ⟨⟨⟨[], 100, 50⟩, 0⟩, ⟨[], 100, 50⟩⟩).2.1 = [1, 2] ∧
    (SearchClient.search_product_stream RetryConfig.default
        (⟨⟨fun _ => TransportOutcome.success 200 (Except.ok "body"), fun _ => 1000, 0⟩,
          fun s =>
            if s = "body" then Except.ok ⟨"html", 42⟩
            else Except.error (DlsiteError.serdeJson "bad"),
          fun _ => ["a", "bad", "bb"],
          fun f =>
            if f = "bad" then Except.error (DlsiteError.parse "x")
            else Except.ok f.length,
          0, 0⟩ : SearchEnv Nat)
        "" "q" ⟨⟨⟨[], 100, 50⟩, 0⟩, ⟨[], 100, 50⟩⟩).2.1.length = 1 + 1 :=
  c8_bulk_fail_fast_stream_skip RetryConfig.default
    (⟨⟨fun _ => TransportOutcome.success 200 (Except.ok "body"), fun _ => 1000, 0⟩,
      fun s =>
        if s = "body" then Except.ok ⟨"html", 42⟩
        else Except.error (DlsiteError.serdeJson "bad"),
      fun _ => ["a", "bad", "bb"],
      fun f =>
        if f = "bad" then Except.error (DlsiteError.parse "x")
        else Except.ok f.length,
      0, 0⟩ : SearchEnv Nat)
    "" "q" ⟨⟨⟨[], 100, 50⟩, 0⟩, ⟨[], 100, 50⟩⟩ "body"
    ⟨⟨[("q", ⟨"body", 1050⟩)], 100, 50⟩, 1000⟩ ⟨1, [1000], [], []⟩ ⟨"html", 42⟩
    ["a"] "bad" ["bb"] (DlsiteError.parse "x")
    (by decide) (by decide) (by decide) (by decide)
    (fun f hf => by
      rw [List.mem_singleton] at hf
      subst hf
      exact ⟨1, by decide⟩)
    (fun f hf => by
      rw [List.mem_singleton] at hf
      subst hf
      exact ⟨2, by decide⟩)

/-- Claim C9 (counterexample).  The claim states that constructing a
cache with capacity 0 fails with a value the caller can branch on.  The
construction instead panics — `NonZeroUsize::new(0).unwrap()` aborts —
so no `ok` value (and no typed error value) is ever returned. -/
theorem c9_zero_capacity_construction_panics_cex :
    ResponseCache.new 0 3600000 =
      PanicOr.panicked "called Option::unwrap on a None value" ∧
    ∀ c : ResponseCache, ResponseCache.new 0 3600000 ≠ PanicOr.ok c := by
  constructor
  · rfl
  · intro c h
    simp [ResponseCache.new] at h

/-- Claim C9 (amended).  Constructing either cache with capacity 0 fails
construction by panicking — an abort, not a branchable return value —
while any positive capacity yields the empty cache with the requested
capacity and TTL. -/
theorem c9_zero_capacity_panics_amended (V : Type) (capacity ttl : Nat) :
    (capacity = 0 →
      GenericCache.new V capacity ttl =
        PanicOr.panicked "called Option::unwrap on a None value" ∧
      ResponseCache.new capacity ttl =
        PanicOr.panicked "called Option::unwrap on a None value") ∧
    (0 < capacity →
      GenericCache.new V capacity ttl =
        PanicOr.ok { entries := [], cap := capacity, ttl := ttl } ∧
      ResponseCache.new capacity ttl =
        PanicOr.ok { entries := [], cap := capacity, ttl := ttl }) := by
  constructor
  · intro h
    subst h
    exact ⟨rfl, rfl⟩
  · intro h
    have hne : capacity ≠ 0 := Nat.pos_iff_ne_zero.mp h
    constructor
    · simp only [GenericCache.new, hne, if_false]
    · simp only [ResponseCache.new, hne, if_false]

/-- Concrete instances of `c9_zero_capacity_panics_amended` at
capacities 0 and 5. -/
theorem c9_zero_capacity_panics_amended_witness :
    (GenericCache.new Nat 0 3600000 =
      PanicOr.panicked "called Option::unwrap on a None value" ∧
     ResponseCache.new 0 3600000 =
      PanicOr.panicked "called Option::unwrap on a None value") ∧
    (GenericCache.new Nat 5 60 = PanicOr.ok { entries := [], cap := 5, ttl := 60 } ∧
     ResponseCache.new 5 60 = PanicOr.ok { entries := [], cap := 5, ttl := 60 }) :=
  ⟨(c9_zero_capacity_panics_amended Nat 0 3600000).1 rfl,
   (c9_zero_capacity_panics_amended Nat 5 60).2 (by decide)⟩
